import Mathlib

/-!
# Packet-tunnel JNI bridge (`android/app/src/main/cpp/packet_tunnel_jni.cpp`)

A shallow embedding of the lazy binding resolver `ensureBridgeLoaded`, the
string hand-off `toJStringAndFree`, and the three JNI entry points
`nativeStartTunnel`, `nativeStopTunnel`, `nativeFreeTunnel`.

Modelling conventions.

* A pointer is a natural number; `0` is `nullptr`.
* The five file-scope globals are the fields of `Globals`.
* Everything outside the translation unit (the dynamic loader, the engine
  functions reached through the cached addresses, the memory an engine
  `char*` points to, `GetStringUTFChars`, `NewStringUTF`) is an `Env`.  Each call of an entry
  point takes the `Env` in force during that call, so the outside world may
  answer differently from one call to the next.
* Every call that leaves the translation unit is recorded, in program order,
  as an `Event`; a function returns its value, the globals after the call and
  the events it emitted (`Outcome`).
* `jlong`/`long long` are both 64-bit and `jint`/`int32_t` both 32-bit, so the
  `static_cast`s of the source are identities; integers are `Int`.
* A `jstring` is an `Option String` (`none` is the null reference).
  `NewStringUTF` and `GetStringUTFChars` belong to the JNI environment and may
  answer null; the source tests the result of the second and returns the result
  of the first as it is.
-/

namespace PacketTunnelJni

/-- Addresses; `0` stands for `nullptr`. -/
abbrev Ptr := Nat

/-- The file-scope globals of the translation unit. -/
structure Globals where
  gBridgeHandle : Ptr
  gStartFn : Ptr
  gStopFn : Ptr
  gFreeFn : Ptr
  gFreeCStringFn : Ptr
  deriving DecidableEq, Repr

/-- The globals as initialised at load time: all `nullptr`. -/
def Globals.init : Globals := ⟨0, 0, 0, 0, 0⟩

/-- The world outside the translation unit, as it answers during one call. -/
structure Env where
  /-- Result of `dlopen(name, RTLD_NOW)`. -/
  dlopen : String → Ptr
  /-- Result of `dlsym(handle, name)`. -/
  dlsym : Ptr → String → Ptr
  /-- Result of `GetStringUTFChars`: `none` is `nullptr`, `some c` a buffer holding `c`. -/
  getStringUTFChars : String → Option String
  /-- Result of `NewStringUTF` on a buffer holding the given text: `none` is the null
  reference, `some s` a Java string holding `s`. -/
  newStringUTF : String → Option String
  /-- Text stored at the address of an engine-owned C string. -/
  cstrAt : Ptr → String
  /-- Value returned by the function at the given address, called as `StartXrayTunnelWithFdFn`. -/
  callStart : Ptr → String → Int → Int
  /-- The `char*` returned by the function at the given address, called as `StopXrayTunnelFn`. -/
  callStop : Ptr → Int → Ptr
  /-- The `char*` returned by the function at the given address, called as `FreeXrayTunnelFn`. -/
  callFree : Ptr → Int → Ptr

/-- Calls leaving the translation unit. -/
inductive Event where
  | dlopen (name : String)
  | dlsym (handle : Ptr) (name : String)
  | getStringUTFChars (s : String)
  | releaseStringUTFChars (s : String) (chars : String)
  | newStringUTFLiteral (text : String)
  | newStringUTF (ptr : Ptr)
  | callStart (fn : Ptr) (config : String) (fd : Int)
  | callStop (fn : Ptr) (handle : Int)
  | callFree (fn : Ptr) (handle : Int)
  | callFreeCString (fn : Ptr) (ptr : Ptr)
  deriving DecidableEq, Repr

/-- Value, globals afterwards, and emitted events of one call. -/
structure Outcome (α : Type) where
  ret : α
  globals : Globals
  trace : List Event
  deriving DecidableEq

/-- A module load or a symbol lookup. -/
def Event.isResolution : Event → Bool
  | .dlopen _ => true
  | .dlsym _ _ => true
  | _ => false

/-- A symbol lookup. -/
def Event.isLookup : Event → Bool
  | .dlsym _ _ => true
  | _ => false

/-- A call through one of the four cached engine addresses. -/
def Event.isEngineCall : Event → Bool
  | .callStart _ _ _ => true
  | .callStop _ _ => true
  | .callFree _ _ => true
  | .callFreeCString _ _ => true
  | _ => false

/-- A call of the release-string entry point. -/
def Event.isFreeCString : Event → Bool
  | .callFreeCString _ _ => true
  | _ => false

/-- The condition `gStartFn != nullptr && gStopFn != nullptr && gFreeFn != nullptr
&& gFreeCStringFn != nullptr` of `ensureBridgeLoaded`. -/
def allResolved (g : Globals) : Bool :=
  g.gStartFn != 0 && g.gStopFn != 0 && g.gFreeFn != 0 && g.gFreeCStringFn != 0

/-- The first half of `ensureBridgeLoaded` after the cache test:
`if (gBridgeHandle == nullptr) gBridgeHandle = dlopen(...)`. -/
def loadIfNeeded (e : Env) (g : Globals) : Globals × List Event :=
  if g.gBridgeHandle == 0 then
    ({ g with gBridgeHandle := e.dlopen "libgo_native_bridge.so" },
      [Event.dlopen "libgo_native_bridge.so"])
  else (g, [])

/-- The four `dlsym` assignments of `ensureBridgeLoaded`. -/
def resolveSymbols (e : Env) (g : Globals) : Globals × List Event :=
  let g1 := { g with gStartFn := e.dlsym g.gBridgeHandle "StartXrayTunnelWithFd" }
  let g2 := { g1 with gStopFn := e.dlsym g1.gBridgeHandle "StopXrayTunnel" }
  let g3 := { g2 with gFreeFn := e.dlsym g2.gBridgeHandle "FreeXrayTunnel" }
  let g4 := { g3 with gFreeCStringFn := e.dlsym g3.gBridgeHandle "FreeCString" }
  (g4, [Event.dlsym g.gBridgeHandle "StartXrayTunnelWithFd",
        Event.dlsym g1.gBridgeHandle "StopXrayTunnel",
        Event.dlsym g2.gBridgeHandle "FreeXrayTunnel",
        Event.dlsym g3.gBridgeHandle "FreeCString"])

/-- Embeds `bool ensureBridgeLoaded()`. -/
def ensureBridgeLoaded (e : Env) (g : Globals) : Outcome Bool :=
  if allResolved g then ⟨true, g, []⟩
  else
    let l := loadIfNeeded e g
    if l.1.gBridgeHandle == 0 then ⟨false, l.1, l.2⟩
    else
      let r := resolveSymbols e l.1
      ⟨allResolved r.1, r.1, l.2 ++ r.2⟩

/-- Embeds `env->NewStringUTF(...)`: what the JNI environment answers for the text. -/
def NewStringUTF (e : Env) (text : String) : Option String := e.newStringUTF text

/-- Embeds `jstring toJStringAndFree(JNIEnv* env, char* ptr)`. -/
def toJStringAndFree (e : Env) (g : Globals) (ptr : Ptr) : Outcome (Option String) :=
  if ptr == 0 then
    ⟨NewStringUTF e "error:null_response", g, [Event.newStringUTFLiteral "error:null_response"]⟩
  else
    let out := NewStringUTF e (e.cstrAt ptr)
    if g.gFreeCStringFn != 0 then
      ⟨out, g, [Event.newStringUTF ptr, Event.callFreeCString g.gFreeCStringFn ptr]⟩
    else
      ⟨out, g, [Event.newStringUTF ptr]⟩

/-- Embeds `Java_com_example_xstream_NativePacketTunnelBridge_nativeStartTunnel`. -/
def nativeStartTunnel (e : Env) (g : Globals) (configJson : Option String) (tunFd : Int) :
    Outcome Int :=
  match configJson with
  | none => ⟨-1, g, []⟩
  | some cfg =>
    if tunFd ≤ 0 then ⟨-1, g, []⟩
    else
      let b := ensureBridgeLoaded e g
      if !b.ret then ⟨-1, b.globals, b.trace⟩
      else
        match e.getStringUTFChars cfg with
        | none => ⟨-1, b.globals, b.trace ++ [Event.getStringUTFChars cfg]⟩
        | some configChars =>
          ⟨e.callStart b.globals.gStartFn configChars tunFd, b.globals,
            b.trace ++ [Event.getStringUTFChars cfg,
                        Event.callStart b.globals.gStartFn configChars tunFd,
                        Event.releaseStringUTFChars cfg configChars]⟩

/-- Embeds `Java_com_example_xstream_NativePacketTunnelBridge_nativeStopTunnel`. -/
def nativeStopTunnel (e : Env) (g : Globals) (handle : Int) : Outcome (Option String) :=
  if handle ≤ 0 then
    ⟨NewStringUTF e "error:invalid_handle", g, [Event.newStringUTFLiteral "error:invalid_handle"]⟩
  else
    let b := ensureBridgeLoaded e g
    if !b.ret then
      ⟨NewStringUTF e "error:native_bridge_unavailable", b.globals,
        b.trace ++ [Event.newStringUTFLiteral "error:native_bridge_unavailable"]⟩
    else
      let result := e.callStop b.globals.gStopFn handle
      let j := toJStringAndFree e b.globals result
      ⟨j.ret, j.globals, b.trace ++ [Event.callStop b.globals.gStopFn handle] ++ j.trace⟩

/-- Embeds `Java_com_example_xstream_NativePacketTunnelBridge_nativeFreeTunnel`. -/
def nativeFreeTunnel (e : Env) (g : Globals) (handle : Int) : Outcome (Option String) :=
  if handle ≤ 0 then
    ⟨NewStringUTF e "error:invalid_handle", g, [Event.newStringUTFLiteral "error:invalid_handle"]⟩
  else
    let b := ensureBridgeLoaded e g
    if !b.ret then
      ⟨NewStringUTF e "error:native_bridge_unavailable", b.globals,
        b.trace ++ [Event.newStringUTFLiteral "error:native_bridge_unavailable"]⟩
    else
      let result := e.callFree b.globals.gFreeFn handle
      let j := toJStringAndFree e b.globals result
      ⟨j.ret, j.globals, b.trace ++ [Event.callFree b.globals.gFreeFn handle] ++ j.trace⟩

/-- One operation on the bridge: the resolver itself or one of the three entry points. -/
inductive Call where
  | ensure
  | start (configJson : Option String) (tunFd : Int)
  | stop (handle : Int)
  | free (handle : Int)

/-- Globals and events after performing one operation in the world `e`. -/
def Call.exec (e : Env) (g : Globals) : Call → Globals × List Event
  | .ensure => ((ensureBridgeLoaded e g).globals, (ensureBridgeLoaded e g).trace)
  | .start c fd => ((nativeStartTunnel e g c fd).globals, (nativeStartTunnel e g c fd).trace)
  | .stop h => ((nativeStopTunnel e g h).globals, (nativeStopTunnel e g h).trace)
  | .free h => ((nativeFreeTunnel e g h).globals, (nativeFreeTunnel e g h).trace)

/-- Globals and events after performing a sequence of operations, each in its own world. -/
def runCalls : List (Env × Call) → Globals → Globals × List Event
  | [], g => (g, [])
  | ec :: rest, g =>
    ((runCalls rest (ec.2.exec ec.1 g).1).1,
      (ec.2.exec ec.1 g).2 ++ (runCalls rest (ec.2.exec ec.1 g).1).2)

/-- The library reference `ensureBridgeLoaded` works with once past the load step: the
cached one, or what `dlopen` answers when none is cached. -/
def loadedHandle (e : Env) (g : Globals) : Ptr :=
  if g.gBridgeHandle == 0 then e.dlopen "libgo_native_bridge.so" else g.gBridgeHandle

/-- All four symbols resolve to non-null addresses on the library reference `h`. -/
def symbolsResolve (e : Env) (h : Ptr) : Bool :=
  e.dlsym h "StartXrayTunnelWithFd" != 0 && e.dlsym h "StopXrayTunnel" != 0 &&
    e.dlsym h "FreeXrayTunnel" != 0 && e.dlsym h "FreeCString" != 0

/-- The binding is available to a call made in world `e` with globals `g`: the cache is
complete, or the module is (or can be) loaded and all four symbols resolve. -/
def bindingAvailable (e : Env) (g : Globals) : Bool :=
  allResolved g || (loadedHandle e g != 0 && symbolsResolve e (loadedHandle e g))

/-- The binding is unavailable to a call made in world `e` with globals `g`: the cache is
incomplete and the module cannot be loaded, or it is loaded but a symbol fails to resolve. -/
def bindingUnavailable (e : Env) (g : Globals) : Bool :=
  !allResolved g && (loadedHandle e g == 0 || !symbolsResolve e (loadedHandle e g))

/-- The events of the load step of `ensureBridgeLoaded`: one `dlopen` when no library
reference is cached, nothing otherwise. -/
def loadTrace (g : Globals) : List Event :=
  if g.gBridgeHandle == 0 then [Event.dlopen "libgo_native_bridge.so"] else []

/-- One lookup sequence: the four `dlsym` calls on the library reference `h`. -/
def lookupTrace (h : Ptr) : List Event :=
  [Event.dlsym h "StartXrayTunnelWithFd", Event.dlsym h "StopXrayTunnel",
   Event.dlsym h "FreeXrayTunnel", Event.dlsym h "FreeCString"]

/-- The globals after one lookup sequence on the library reference `h` in world `e`. -/
def resolvedTo (e : Env) (h : Ptr) : Globals :=
  ⟨h, e.dlsym h "StartXrayTunnelWithFd", e.dlsym h "StopXrayTunnel",
    e.dlsym h "FreeXrayTunnel", e.dlsym h "FreeCString"⟩

/-- The `char*` the engine stop entry point answers to `nativeStopTunnel e g h`. -/
def stopResponse (e : Env) (g : Globals) (h : Int) : Ptr :=
  e.callStop (ensureBridgeLoaded e g).globals.gStopFn h

/-- The `char*` the engine free entry point answers to `nativeFreeTunnel e g h`. -/
def freeResponse (e : Env) (g : Globals) (h : Int) : Ptr :=
  e.callFree (ensureBridgeLoaded e g).globals.gFreeFn h

/-- The text `nativeStopTunnel e g h` hands to `NewStringUTF` once the engine stop entry point
has answered: the literal for a null answer, the text at the answered address otherwise. -/
def stopText (e : Env) (g : Globals) (h : Int) : String :=
  if stopResponse e g h = 0 then "error:null_response" else e.cstrAt (stopResponse e g h)

/-- The text `nativeFreeTunnel e g h` hands to `NewStringUTF` once the engine free entry point
has answered. -/
def freeText (e : Env) (g : Globals) (h : Int) : String :=
  if freeResponse e g h = 0 then "error:null_response" else e.cstrAt (freeResponse e g h)

/-- A test double of the outside world: the module loads at address `100`, the
four symbols resolve to `1`, `2`, `3`, `4`, the JNI calls succeed, start answers `42`, stop answers the
buffer at `500` holding `"stopped"`, free the buffer at `501` holding `"freed"`. -/
def stubEnv : Env where
  dlopen := fun name => if name = "libgo_native_bridge.so" then 100 else 0
  dlsym := fun h name =>
    if h = 100 then
      if name = "StartXrayTunnelWithFd" then 1
      else if name = "StopXrayTunnel" then 2
      else if name = "FreeXrayTunnel" then 3
      else if name = "FreeCString" then 4
      else 0
    else 0
  getStringUTFChars := fun s => some s
  newStringUTF := fun s => some s
  cstrAt := fun p => if p = 500 then "stopped" else if p = 501 then "freed" else ""
  callStart := fun _ _ _ => 42
  callStop := fun _ _ => 500
  callFree := fun _ _ => 501

/-- The test double with the engine module absent: `dlopen` answers `nullptr`. -/
def noModuleEnv : Env := { stubEnv with dlopen := fun _ => 0 }

/-- The test double with the symbol `FreeCString` missing from the module. -/
def missingSymbolEnv : Env :=
  { stubEnv with dlsym := fun h name => if name = "FreeCString" then 0 else stubEnv.dlsym h name }

/-- The test double with a JNI environment whose `NewStringUTF` answers the null reference. -/
def jniNullEnv : Env := { stubEnv with newStringUTF := fun _ => none }

/-- Globals after a successful resolution against `stubEnv`. -/
def resolvedGlobals : Globals := ⟨100, 1, 2, 3, 4⟩

/-! ## The resolver -/

theorem ensure_of_resolved (e : Env) (g : Globals) (h : allResolved g = true) :
    ensureBridgeLoaded e g = ⟨true, g, []⟩ := by
  simp [ensureBridgeLoaded, h]

theorem ensure_load_failed (e : Env) (g : Globals) (hr : allResolved g = false)
    (h0 : loadedHandle e g = 0) :
    ensureBridgeLoaded e g = ⟨false, g, [Event.dlopen "libgo_native_bridge.so"]⟩ := by
  unfold loadedHandle at h0
  by_cases hg : g.gBridgeHandle = 0
  · simp only [hg, beq_self_eq_true, if_true] at h0
    cases g
    simp_all [ensureBridgeLoaded, loadIfNeeded]
  · simp [hg] at h0

theorem ensure_lookup (e : Env) (g : Globals) (hr : allResolved g = false)
    (h0 : loadedHandle e g ≠ 0) :
    ensureBridgeLoaded e g =
      ⟨symbolsResolve e (loadedHandle e g), resolvedTo e (loadedHandle e g),
        loadTrace g ++ lookupTrace (loadedHandle e g)⟩ := by
  unfold ensureBridgeLoaded
  rw [if_neg (by simp [hr])]
  unfold loadedHandle at h0 ⊢
  by_cases hg : g.gBridgeHandle = 0
  · simp only [hg, beq_self_eq_true, if_true] at h0 ⊢
    simp [loadIfNeeded, resolveSymbols, hg, h0, loadTrace, lookupTrace,
      resolvedTo, symbolsResolve, allResolved]
  · simp [loadIfNeeded, resolveSymbols, hg, loadTrace, lookupTrace,
      resolvedTo, symbolsResolve, allResolved]

theorem allResolved_resolvedTo (e : Env) (h : Ptr) :
    allResolved (resolvedTo e h) = symbolsResolve e h := rfl

theorem ensure_ret_eq (e : Env) (g : Globals) :
    (ensureBridgeLoaded e g).ret = bindingAvailable e g := by
  cases hr : allResolved g
  · by_cases h0 : loadedHandle e g = 0
    · rw [ensure_load_failed e g hr h0]; simp [bindingAvailable, hr, h0]
    · rw [ensure_lookup e g hr h0]; simp [bindingAvailable, hr, h0]
  · rw [ensure_of_resolved e g hr]; simp [bindingAvailable, hr]

theorem unavailable_eq_not_available (e : Env) (g : Globals) :
    bindingUnavailable e g = !bindingAvailable e g := by
  unfold bindingUnavailable bindingAvailable
  cases allResolved g <;> cases symbolsResolve e (loadedHandle e g) <;>
    by_cases h0 : loadedHandle e g = 0 <;> simp [h0, bne]

theorem ensure_true_resolved (e : Env) (g : Globals)
    (h : (ensureBridgeLoaded e g).ret = true) :
    allResolved (ensureBridgeLoaded e g).globals = true := by
  cases hr : allResolved g
  · by_cases h0 : loadedHandle e g = 0
    · rw [ensure_load_failed e g hr h0] at h; simp at h
    · rw [ensure_lookup e g hr h0] at h ⊢
      simpa [allResolved_resolvedTo] using h
  · rw [ensure_of_resolved e g hr]; exact hr

theorem loadTrace_no_engine (g : Globals) :
    (loadTrace g).filter Event.isEngineCall = [] := by
  unfold loadTrace; split <;> simp [Event.isEngineCall]

theorem ensure_trace_no_engine (e : Env) (g : Globals) :
    (ensureBridgeLoaded e g).trace.filter Event.isEngineCall = [] := by
  cases hr : allResolved g
  · by_cases h0 : loadedHandle e g = 0
    · rw [ensure_load_failed e g hr h0]; simp [Event.isEngineCall]
    · rw [ensure_lookup e g hr h0]
      simp [loadTrace_no_engine, lookupTrace, Event.isEngineCall]
  · rw [ensure_of_resolved e g hr]; rfl

theorem ensure_trace_no_release (e : Env) (g : Globals) :
    (ensureBridgeLoaded e g).trace.filter Event.isFreeCString = [] := by
  cases hr : allResolved g
  · by_cases h0 : loadedHandle e g = 0
    · rw [ensure_load_failed e g hr h0]; simp [Event.isFreeCString]
    · rw [ensure_lookup e g hr h0]
      have : (loadTrace g).filter Event.isFreeCString = [] := by
        unfold loadTrace; split <;> simp [Event.isFreeCString]
      simp [this, lookupTrace, Event.isFreeCString]
  · rw [ensure_of_resolved e g hr]; rfl

/-! ## Stop and free past the handle test -/

theorem resolved_release_ne (g : Globals) (h : allResolved g = true) : g.gFreeCStringFn ≠ 0 := by
  simp [allResolved] at h
  exact h.2

theorem toJString_null (e : Env) (g : Globals) :
    toJStringAndFree e g 0 =
      ⟨e.newStringUTF "error:null_response", g, [Event.newStringUTFLiteral "error:null_response"]⟩ := by
  simp [toJStringAndFree, NewStringUTF]

theorem toJString_text (e : Env) (g : Globals) (ptr : Ptr) (hp : ptr ≠ 0)
    (hg : g.gFreeCStringFn ≠ 0) :
    toJStringAndFree e g ptr =
      ⟨e.newStringUTF (e.cstrAt ptr), g,
        [Event.newStringUTF ptr, Event.callFreeCString g.gFreeCStringFn ptr]⟩ := by
  simp [toJStringAndFree, NewStringUTF, hp, hg]

theorem stop_unavailable (e : Env) (g : Globals) (h : Int) (hh : 0 < h)
    (hr : (ensureBridgeLoaded e g).ret = false) :
    nativeStopTunnel e g h =
      ⟨e.newStringUTF "error:native_bridge_unavailable", (ensureBridgeLoaded e g).globals,
        (ensureBridgeLoaded e g).trace ++
          [Event.newStringUTFLiteral "error:native_bridge_unavailable"]⟩ := by
  simp [nativeStopTunnel, not_le.mpr hh, hr, NewStringUTF]

theorem free_unavailable (e : Env) (g : Globals) (h : Int) (hh : 0 < h)
    (hr : (ensureBridgeLoaded e g).ret = false) :
    nativeFreeTunnel e g h =
      ⟨e.newStringUTF "error:native_bridge_unavailable", (ensureBridgeLoaded e g).globals,
        (ensureBridgeLoaded e g).trace ++
          [Event.newStringUTFLiteral "error:native_bridge_unavailable"]⟩ := by
  simp [nativeFreeTunnel, not_le.mpr hh, hr, NewStringUTF]

theorem start_unavailable (e : Env) (g : Globals) (cfg : String) (tunFd : Int) (hfd : 0 < tunFd)
    (hr : (ensureBridgeLoaded e g).ret = false) :
    nativeStartTunnel e g (some cfg) tunFd =
      ⟨-1, (ensureBridgeLoaded e g).globals, (ensureBridgeLoaded e g).trace⟩ := by
  simp [nativeStartTunnel, not_le.mpr hfd, hr]

theorem stop_null (e : Env) (g : Globals) (h : Int) (hh : 0 < h)
    (hr : (ensureBridgeLoaded e g).ret = true) (hp : stopResponse e g h = 0) :
    nativeStopTunnel e g h =
      ⟨e.newStringUTF "error:null_response", (ensureBridgeLoaded e g).globals,
        (ensureBridgeLoaded e g).trace ++
          [Event.callStop (ensureBridgeLoaded e g).globals.gStopFn h,
           Event.newStringUTFLiteral "error:null_response"]⟩ := by
  unfold stopResponse at hp
  simp [nativeStopTunnel, not_le.mpr hh, hr, hp, toJString_null]

theorem stop_text (e : Env) (g : Globals) (h : Int) (hh : 0 < h)
    (hr : (ensureBridgeLoaded e g).ret = true) (hp : stopResponse e g h ≠ 0) :
    nativeStopTunnel e g h =
      ⟨e.newStringUTF (e.cstrAt (stopResponse e g h)), (ensureBridgeLoaded e g).globals,
        (ensureBridgeLoaded e g).trace ++
          [Event.callStop (ensureBridgeLoaded e g).globals.gStopFn h,
           Event.newStringUTF (stopResponse e g h),
           Event.callFreeCString (ensureBridgeLoaded e g).globals.gFreeCStringFn
             (stopResponse e g h)]⟩ := by
  have hg := resolved_release_ne _ (ensure_true_resolved e g hr)
  unfold stopResponse at hp ⊢
  simp [nativeStopTunnel, not_le.mpr hh, hr, toJString_text e _ _ hp hg]

theorem free_null (e : Env) (g : Globals) (h : Int) (hh : 0 < h)
    (hr : (ensureBridgeLoaded e g).ret = true) (hp : freeResponse e g h = 0) :
    nativeFreeTunnel e g h =
      ⟨e.newStringUTF "error:null_response", (ensureBridgeLoaded e g).globals,
        (ensureBridgeLoaded e g).trace ++
          [Event.callFree (ensureBridgeLoaded e g).globals.gFreeFn h,
           Event.newStringUTFLiteral "error:null_response"]⟩ := by
  unfold freeResponse at hp
  simp [nativeFreeTunnel, not_le.mpr hh, hr, hp, toJString_null]

theorem free_text (e : Env) (g : Globals) (h : Int) (hh : 0 < h)
    (hr : (ensureBridgeLoaded e g).ret = true) (hp : freeResponse e g h ≠ 0) :
    nativeFreeTunnel e g h =
      ⟨e.newStringUTF (e.cstrAt (freeResponse e g h)), (ensureBridgeLoaded e g).globals,
        (ensureBridgeLoaded e g).trace ++
          [Event.callFree (ensureBridgeLoaded e g).globals.gFreeFn h,
           Event.newStringUTF (freeResponse e g h),
           Event.callFreeCString (ensureBridgeLoaded e g).globals.gFreeCStringFn
             (freeResponse e g h)]⟩ := by
  have hg := resolved_release_ne _ (ensure_true_resolved e g hr)
  unfold freeResponse at hp ⊢
  simp [nativeFreeTunnel, not_le.mpr hh, hr, toJString_text e _ _ hp hg]

theorem stop_invalid (e : Env) (g : Globals) (h : Int) (hh : h ≤ 0) :
    nativeStopTunnel e g h =
      ⟨e.newStringUTF "error:invalid_handle", g, [Event.newStringUTFLiteral "error:invalid_handle"]⟩ := by
  simp [nativeStopTunnel, hh, NewStringUTF]

theorem free_invalid (e : Env) (g : Globals) (h : Int) (hh : h ≤ 0) :
    nativeFreeTunnel e g h =
      ⟨e.newStringUTF "error:invalid_handle", g, [Event.newStringUTFLiteral "error:invalid_handle"]⟩ := by
  simp [nativeFreeTunnel, hh, NewStringUTF]

/-! ## Precondition failures -/

/-- C1: for every handle `h ≤ 0`, every world and every content of the globals,
`nativeStopTunnel` and `nativeFreeTunnel` return what `NewStringUTF` makes of exactly the
literal `"error:invalid_handle"` (that text itself whenever `NewStringUTF` answers a string
holding it); that `NewStringUTF` is the only call they make, so there is no module load, no
symbol lookup and no engine call, and the globals are left as they were. -/
theorem C1_invalid_handle_short_circuits (e : Env) (g : Globals) (h : Int) (hh : h ≤ 0) :
    nativeStopTunnel e g h =
        ⟨e.newStringUTF "error:invalid_handle", g,
          [Event.newStringUTFLiteral "error:invalid_handle"]⟩ ∧
      nativeFreeTunnel e g h =
        ⟨e.newStringUTF "error:invalid_handle", g,
          [Event.newStringUTFLiteral "error:invalid_handle"]⟩ ∧
      (e.newStringUTF "error:invalid_handle" = some "error:invalid_handle" →
        nativeStopTunnel e g h =
            ⟨some "error:invalid_handle", g,
              [Event.newStringUTFLiteral "error:invalid_handle"]⟩ ∧
          nativeFreeTunnel e g h =
            ⟨some "error:invalid_handle", g,
              [Event.newStringUTFLiteral "error:invalid_handle"]⟩) ∧
      (nativeStopTunnel e g h).trace.filter Event.isResolution = [] ∧
      (nativeStopTunnel e g h).trace.filter Event.isEngineCall = [] ∧
      (nativeFreeTunnel e g h).trace.filter Event.isResolution = [] ∧
      (nativeFreeTunnel e g h).trace.filter Event.isEngineCall = [] := by
  rw [stop_invalid e g h hh, free_invalid e g h hh]
  refine ⟨rfl, rfl, ?_, rfl, rfl, rfl, rfl⟩
  intro hj
  rw [hj]
  exact ⟨rfl, rfl⟩

/-- Scenario C: handle `0` against a fully resolved binding. -/
theorem C1_invalid_handle_witness :
    nativeStopTunnel stubEnv resolvedGlobals 0 =
        ⟨some "error:invalid_handle", resolvedGlobals,
          [Event.newStringUTFLiteral "error:invalid_handle"]⟩ ∧
      nativeFreeTunnel stubEnv resolvedGlobals 0 =
        ⟨some "error:invalid_handle", resolvedGlobals,
          [Event.newStringUTFLiteral "error:invalid_handle"]⟩ ∧
      (nativeStopTunnel stubEnv resolvedGlobals 0).trace.filter Event.isResolution = [] ∧
      (nativeStopTunnel stubEnv resolvedGlobals 0).trace.filter Event.isEngineCall = [] ∧
      (nativeFreeTunnel stubEnv resolvedGlobals 0).trace.filter Event.isResolution = [] ∧
      (nativeFreeTunnel stubEnv resolvedGlobals 0).trace.filter Event.isEngineCall = [] :=
  ⟨((C1_invalid_handle_short_circuits stubEnv resolvedGlobals 0 (by decide)).2.2.1 rfl).1,
    ((C1_invalid_handle_short_circuits stubEnv resolvedGlobals 0 (by decide)).2.2.1 rfl).2,
    (C1_invalid_handle_short_circuits stubEnv resolvedGlobals 0 (by decide)).2.2.2⟩

/-- C2: when the config is null or the descriptor is `≤ 0` (zero included),
`nativeStartTunnel` returns `-1`, makes no call at all (no module load, no symbol lookup,
no engine start) and leaves the globals as they were, in every world and for every content
of the globals. -/
theorem C2_start_rejects_bad_input (e : Env) (g : Globals) (configJson : Option String)
    (tunFd : Int) (hbad : configJson = none ∨ tunFd ≤ 0) :
    nativeStartTunnel e g configJson tunFd = ⟨-1, g, []⟩ := by
  cases configJson with
  | none => rfl
  | some cfg =>
    have hfd : tunFd ≤ 0 := by
      cases hbad with
      | inl h => cases h
      | inr h => exact h
    simp [nativeStartTunnel, hfd]

/-- Scenario D: descriptor `-1`, config an empty JSON object. -/
theorem C2_start_rejects_bad_input_witness :
    nativeStartTunnel stubEnv Globals.init (some "\x7b\x7d") (-1) = ⟨-1, Globals.init, []⟩ :=
  C2_start_rejects_bad_input stubEnv Globals.init (some "\x7b\x7d") (-1) (Or.inr (by decide))

/-- C3 fails: a non-null empty config with descriptor `7`, from the initial globals and
against the test double, is not rejected: the module is loaded, the four symbols are looked
up, the engine start function is called with `("", 7)` and its answer `42` is returned. -/
theorem C3_empty_config_counterexample :
    nativeStartTunnel stubEnv Globals.init (some "") 7 =
        ⟨42, resolvedGlobals,
          [Event.dlopen "libgo_native_bridge.so",
           Event.dlsym 100 "StartXrayTunnelWithFd", Event.dlsym 100 "StopXrayTunnel",
           Event.dlsym 100 "FreeXrayTunnel", Event.dlsym 100 "FreeCString",
           Event.getStringUTFChars "", Event.callStart 1 "" 7,
           Event.releaseStringUTFChars "" ""]⟩ ∧
      ¬ ((nativeStartTunnel stubEnv Globals.init (some "") 7).ret = -1 ∧
          (nativeStartTunnel stubEnv Globals.init (some "") 7).trace.filter
            Event.isResolution = [] ∧
          (nativeStartTunnel stubEnv Globals.init (some "") 7).trace.filter
            Event.isEngineCall = []) := by
  decide

/-- C3 as amended: with a non-null empty config, `nativeStartTunnel` returns `-1` without
any call when the descriptor is `≤ 0`; with a descriptor `> 0` the empty text is treated as
any other config: the resolver runs, and when the binding is available and the text
converts, the engine start function is called exactly once, with the converted empty text
and the descriptor, and its answer is returned as it is; when the binding is unavailable,
or the text does not convert, the resolver has run all the same and `-1` is returned without
an engine call. -/
theorem C3_empty_config_amended (e : Env) (g : Globals) (tunFd : Int) (configChars : String) :
    (tunFd ≤ 0 → nativeStartTunnel e g (some "") tunFd = ⟨-1, g, []⟩) ∧
      (0 < tunFd → bindingAvailable e g = true →
        e.getStringUTFChars "" = some configChars →
        nativeStartTunnel e g (some "") tunFd =
          ⟨e.callStart (ensureBridgeLoaded e g).globals.gStartFn configChars tunFd,
            (ensureBridgeLoaded e g).globals,
            (ensureBridgeLoaded e g).trace ++
              [Event.getStringUTFChars "",
               Event.callStart (ensureBridgeLoaded e g).globals.gStartFn configChars tunFd,
               Event.releaseStringUTFChars "" configChars]⟩) ∧
      (0 < tunFd → bindingAvailable e g = false →
        nativeStartTunnel e g (some "") tunFd =
          ⟨-1, (ensureBridgeLoaded e g).globals, (ensureBridgeLoaded e g).trace⟩) ∧
      (0 < tunFd → bindingAvailable e g = true → e.getStringUTFChars "" = none →
        nativeStartTunnel e g (some "") tunFd =
          ⟨-1, (ensureBridgeLoaded e g).globals,
            (ensureBridgeLoaded e g).trace ++ [Event.getStringUTFChars ""]⟩) := by
  refine ⟨?_, ?_, ?_, ?_⟩
  · intro hfd
    simp [nativeStartTunnel, hfd]
  · intro hfd hb hc
    have hr : (ensureBridgeLoaded e g).ret = true := by rw [ensure_ret_eq]; exact hb
    simp [nativeStartTunnel, not_le.mpr hfd, hr, hc]
  · intro hfd hb
    have hr : (ensureBridgeLoaded e g).ret = false := by rw [ensure_ret_eq]; exact hb
    exact start_unavailable e g "" tunFd hfd hr
  · intro hfd hb hc
    have hr : (ensureBridgeLoaded e g).ret = true := by rw [ensure_ret_eq]; exact hb
    simp [nativeStartTunnel, not_le.mpr hfd, hr, hc]

/-- The amended C3 at descriptor `7` against the test double, and at descriptor `0`. -/
theorem C3_empty_config_amended_witness :
    nativeStartTunnel stubEnv Globals.init (some "") 0 = ⟨-1, Globals.init, []⟩ ∧
      nativeStartTunnel stubEnv Globals.init (some "") 7 =
        ⟨stubEnv.callStart (ensureBridgeLoaded stubEnv Globals.init).globals.gStartFn "" 7,
          (ensureBridgeLoaded stubEnv Globals.init).globals,
          (ensureBridgeLoaded stubEnv Globals.init).trace ++
            [Event.getStringUTFChars "",
             Event.callStart (ensureBridgeLoaded stubEnv Globals.init).globals.gStartFn "" 7,
             Event.releaseStringUTFChars "" ""]⟩ :=
  ⟨(C3_empty_config_amended stubEnv Globals.init 0 "").1 (by decide),
    (C3_empty_config_amended stubEnv Globals.init 7 "").2.1 (by decide) (by decide) rfl⟩

/-! ## Start reaches the engine -/

/-- C7: for a non-null config and a descriptor `> 0`, when the binding is available and
`GetStringUTFChars` yields the native text `configChars`, `nativeStartTunnel` returns the
engine start function's answer unchanged (whatever it is: zero, negative or positive), the
only engine call in its trace is one call of the start function, through the cached start
address, with `(configChars, tunFd)`; stop, free and release-string are not called. -/
theorem C7_start_returns_engine_result (e : Env) (g : Globals) (cfg configChars : String)
    (tunFd : Int) (hfd : 0 < tunFd) (hb : bindingAvailable e g = true)
    (hc : e.getStringUTFChars cfg = some configChars) :
    (nativeStartTunnel e g (some cfg) tunFd).ret =
        e.callStart (ensureBridgeLoaded e g).globals.gStartFn configChars tunFd ∧
      (nativeStartTunnel e g (some cfg) tunFd).trace.filter Event.isEngineCall =
        [Event.callStart (ensureBridgeLoaded e g).globals.gStartFn configChars tunFd] ∧
      (nativeStartTunnel e g (some cfg) tunFd).trace =
        (ensureBridgeLoaded e g).trace ++
          [Event.getStringUTFChars cfg,
           Event.callStart (ensureBridgeLoaded e g).globals.gStartFn configChars tunFd,
           Event.releaseStringUTFChars cfg configChars] := by
  have hr : (ensureBridgeLoaded e g).ret = true := by rw [ensure_ret_eq]; exact hb
  have ho : nativeStartTunnel e g (some cfg) tunFd =
      ⟨e.callStart (ensureBridgeLoaded e g).globals.gStartFn configChars tunFd,
        (ensureBridgeLoaded e g).globals,
        (ensureBridgeLoaded e g).trace ++
          [Event.getStringUTFChars cfg,
           Event.callStart (ensureBridgeLoaded e g).globals.gStartFn configChars tunFd,
           Event.releaseStringUTFChars cfg configChars]⟩ := by
    simp [nativeStartTunnel, not_le.mpr hfd, hr, hc]
  rw [ho]
  simp [ensure_trace_no_engine, Event.isEngineCall]

/-- Scenario A: config an empty JSON object, descriptor `7`, engine answer `42`. -/
theorem C7_start_returns_engine_result_witness :
    (nativeStartTunnel stubEnv Globals.init (some "\x7b\x7d") 7).ret = 42 ∧
      (nativeStartTunnel stubEnv Globals.init (some "\x7b\x7d") 7).trace.filter Event.isEngineCall =
        [Event.callStart 1 "\x7b\x7d" 7] ∧
      (nativeStartTunnel stubEnv Globals.init (some "\x7b\x7d") 7).trace =
        (ensureBridgeLoaded stubEnv Globals.init).trace ++
          [Event.getStringUTFChars "\x7b\x7d", Event.callStart 1 "\x7b\x7d" 7,
           Event.releaseStringUTFChars "\x7b\x7d" "\x7b\x7d"] :=
  C7_start_returns_engine_result stubEnv Globals.init "\x7b\x7d" "\x7b\x7d" 7 (by decide) (by decide) rfl

/-! ## Binding unavailable -/

theorem start_globals_of_ready (e : Env) (g : Globals) (cfg : String) (tunFd : Int)
    (hfd : 0 < tunFd) (hr : (ensureBridgeLoaded e g).ret = true) :
    (nativeStartTunnel e g (some cfg) tunFd).globals = (ensureBridgeLoaded e g).globals := by
  unfold nativeStartTunnel
  simp only [not_le.mpr hfd, if_false, hr, Bool.not_true, Bool.false_eq_true]
  split <;> rfl

theorem exec_engine_call (c : Call) (e : Env) (g : Globals)
    (hne : (c.exec e g).2.filter Event.isEngineCall ≠ []) :
    allResolved (c.exec e g).1 = true ∧ (c.exec e g).1 = (ensureBridgeLoaded e g).globals := by
  cases c with
  | ensure => exact absurd (ensure_trace_no_engine e g) hne
  | start cfg fd =>
    cases cfg with
    | none => exact absurd rfl hne
    | some cfg =>
      by_cases hfd : fd ≤ 0
      · simp [Call.exec, nativeStartTunnel, hfd] at hne
      · have hfd := not_le.mp hfd
        cases hr : (ensureBridgeLoaded e g).ret
        · simp [Call.exec, start_unavailable e g cfg fd hfd hr, ensure_trace_no_engine] at hne
        · have hg := start_globals_of_ready e g cfg fd hfd hr
          simp only [Call.exec, hg]
          exact ⟨ensure_true_resolved e g hr, trivial⟩
  | stop h =>
    by_cases hh : h ≤ 0
    · simp [Call.exec, stop_invalid e g h hh, Event.isEngineCall] at hne
    · have hh := not_le.mp hh
      cases hr : (ensureBridgeLoaded e g).ret
      · simp [Call.exec, stop_unavailable e g h hh hr, ensure_trace_no_engine,
          Event.isEngineCall] at hne
      · by_cases hp : stopResponse e g h = 0
        · simp only [Call.exec, stop_null e g h hh hr hp]
          exact ⟨ensure_true_resolved e g hr, trivial⟩
        · simp only [Call.exec, stop_text e g h hh hr hp]
          exact ⟨ensure_true_resolved e g hr, trivial⟩
  | free h =>
    by_cases hh : h ≤ 0
    · simp [Call.exec, free_invalid e g h hh, Event.isEngineCall] at hne
    · have hh := not_le.mp hh
      cases hr : (ensureBridgeLoaded e g).ret
      · simp [Call.exec, free_unavailable e g h hh hr, ensure_trace_no_engine,
          Event.isEngineCall] at hne
      · by_cases hp : freeResponse e g h = 0
        · simp only [Call.exec, free_null e g h hh hr hp]
          exact ⟨ensure_true_resolved e g hr, trivial⟩
        · simp only [Call.exec, free_text e g h hh hr hp]
          exact ⟨ensure_true_resolved e g hr, trivial⟩

/-- C4: for a non-null config with descriptor `> 0` and a handle `> 0`, when the binding is
unavailable to the call (the cache is incomplete and the module cannot be loaded, or it is
loaded but one of the four symbols does not resolve), `nativeStartTunnel` returns `-1`,
`nativeStopTunnel` and `nativeFreeTunnel` return what `NewStringUTF` makes of exactly the
literal `"error:native_bridge_unavailable"` (that text itself whenever `NewStringUTF` answers
a string holding it), and none of the three calls any engine entry point.  Moreover, for
every operation in every world, if its trace holds an engine call then the globals it ran
that call with are those left by `ensureBridgeLoaded` and all four cached addresses in them
are non-null. -/
theorem C4_unavailable_binding (e : Env) (g : Globals) (cfg : String) (tunFd h : Int)
    (hfd : 0 < tunFd) (hh : 0 < h) (hu : bindingUnavailable e g = true) :
    (nativeStartTunnel e g (some cfg) tunFd).ret = -1 ∧
      (nativeStopTunnel e g h).ret = e.newStringUTF "error:native_bridge_unavailable" ∧
      (nativeFreeTunnel e g h).ret = e.newStringUTF "error:native_bridge_unavailable" ∧
      (nativeStopTunnel e g h).trace =
        (ensureBridgeLoaded e g).trace ++
          [Event.newStringUTFLiteral "error:native_bridge_unavailable"] ∧
      (nativeFreeTunnel e g h).trace =
        (ensureBridgeLoaded e g).trace ++
          [Event.newStringUTFLiteral "error:native_bridge_unavailable"] ∧
      (e.newStringUTF "error:native_bridge_unavailable" =
          some "error:native_bridge_unavailable" →
        (nativeStopTunnel e g h).ret = some "error:native_bridge_unavailable" ∧
          (nativeFreeTunnel e g h).ret = some "error:native_bridge_unavailable") ∧
      (nativeStartTunnel e g (some cfg) tunFd).trace.filter Event.isEngineCall = [] ∧
      (nativeStopTunnel e g h).trace.filter Event.isEngineCall = [] ∧
      (nativeFreeTunnel e g h).trace.filter Event.isEngineCall = [] ∧
      (∀ (c : Call) (e1 : Env) (g1 : Globals),
        (c.exec e1 g1).2.filter Event.isEngineCall ≠ [] →
          allResolved (c.exec e1 g1).1 = true ∧
            (c.exec e1 g1).1 = (ensureBridgeLoaded e1 g1).globals) := by
  have hr : (ensureBridgeLoaded e g).ret = false := by
    rw [ensure_ret_eq]
    rw [unavailable_eq_not_available] at hu
    simpa using hu
  rw [start_unavailable e g cfg tunFd hfd hr, stop_unavailable e g h hh hr,
    free_unavailable e g h hh hr]
  refine ⟨rfl, rfl, rfl, rfl, rfl, fun hj => ⟨hj, hj⟩, ensure_trace_no_engine e g, ?_, ?_,
    exec_engine_call⟩ <;>
    simp [ensure_trace_no_engine, Event.isEngineCall]

/-- The module is absent and nothing is cached: start, stop and free at descriptor `7` and
handle `42`. -/
theorem C4_unavailable_binding_witness :
    (nativeStartTunnel noModuleEnv Globals.init (some "\x7b\x7d") 7).ret = -1 ∧
      (nativeStopTunnel noModuleEnv Globals.init 42).ret =
        some "error:native_bridge_unavailable" ∧
      (nativeFreeTunnel noModuleEnv Globals.init 42).ret =
        some "error:native_bridge_unavailable" ∧
      (nativeStartTunnel noModuleEnv Globals.init (some "\x7b\x7d") 7).trace.filter
        Event.isEngineCall = [] ∧
      (nativeStopTunnel noModuleEnv Globals.init 42).trace.filter Event.isEngineCall = [] ∧
      (nativeFreeTunnel noModuleEnv Globals.init 42).trace.filter Event.isEngineCall = [] ∧
      (∀ (c : Call) (e1 : Env) (g1 : Globals),
        (c.exec e1 g1).2.filter Event.isEngineCall ≠ [] →
          allResolved (c.exec e1 g1).1 = true ∧
            (c.exec e1 g1).1 = (ensureBridgeLoaded e1 g1).globals) :=
  ⟨(C4_unavailable_binding noModuleEnv Globals.init "\x7b\x7d" 7 42 (by decide) (by decide)
      (by decide)).1,
    ((C4_unavailable_binding noModuleEnv Globals.init "\x7b\x7d" 7 42 (by decide) (by decide)
      (by decide)).2.2.2.2.2.1 rfl).1,
    ((C4_unavailable_binding noModuleEnv Globals.init "\x7b\x7d" 7 42 (by decide) (by decide)
      (by decide)).2.2.2.2.2.1 rfl).2,
    (C4_unavailable_binding noModuleEnv Globals.init "\x7b\x7d" 7 42 (by decide) (by decide)
      (by decide)).2.2.2.2.2.2⟩

/-! ## Stop and free reach the engine -/

theorem ready_trace_calls (e : Env) (g : Globals) :
    (ensureBridgeLoaded e g).trace.filter (fun ev => ev.isEngineCall && !ev.isFreeCString) =
      [] := by
  have h0 := ensure_trace_no_engine e g
  rw [List.filter_eq_nil_iff] at h0 ⊢
  intro a ha
  simp [h0 a ha]

theorem stop_pass_through (e : Env) (g : Globals) (h : Int) (hh : 0 < h)
    (hb : bindingAvailable e g = true) :
    (nativeStopTunnel e g h).ret = e.newStringUTF (stopText e g h) ∧
      (nativeStopTunnel e g h).trace.filter (fun ev => ev.isEngineCall && !ev.isFreeCString) =
        [Event.callStop (ensureBridgeLoaded e g).globals.gStopFn h] := by
  have hr : (ensureBridgeLoaded e g).ret = true := by rw [ensure_ret_eq]; exact hb
  have hn := ready_trace_calls e g
  unfold stopText
  by_cases hp : stopResponse e g h = 0
  · rw [stop_null e g h hh hr hp]
    simp only [List.filter_append, hn, List.nil_append, hp, if_true]
    exact ⟨trivial, rfl⟩
  · rw [stop_text e g h hh hr hp]
    simp only [List.filter_append, hn, List.nil_append, hp, if_false]
    exact ⟨trivial, rfl⟩

theorem free_pass_through (e : Env) (g : Globals) (h : Int) (hh : 0 < h)
    (hb : bindingAvailable e g = true) :
    (nativeFreeTunnel e g h).ret = e.newStringUTF (freeText e g h) ∧
      (nativeFreeTunnel e g h).trace.filter (fun ev => ev.isEngineCall && !ev.isFreeCString) =
        [Event.callFree (ensureBridgeLoaded e g).globals.gFreeFn h] := by
  have hr : (ensureBridgeLoaded e g).ret = true := by rw [ensure_ret_eq]; exact hb
  have hn := ready_trace_calls e g
  unfold freeText
  by_cases hp : freeResponse e g h = 0
  · rw [free_null e g h hh hr hp]
    simp only [List.filter_append, hn, List.nil_append, hp, if_true]
    exact ⟨trivial, rfl⟩
  · rw [free_text e g h hh hr hp]
    simp only [List.filter_append, hn, List.nil_append, hp, if_false]
    exact ⟨trivial, rfl⟩

theorem text_of_copy (e : Env) (p : Ptr) (hj : ∀ t, e.newStringUTF t = some t) :
    e.newStringUTF (if p = 0 then "error:null_response" else e.cstrAt p) =
      if p = 0 then some "error:null_response" else some (e.cstrAt p) := by
  rw [hj]
  split <;> rfl

/-- C5 fails: with handle `42`, the binding resolving and the engine answering the non-null
buffer at `500` holding `"stopped"` (free: `501` holding `"freed"`), in a world whose
`NewStringUTF` answers the null reference, `nativeStopTunnel` and `nativeFreeTunnel` call the
engine, release the buffer and return the null reference, which is not the engine's text. -/
theorem C5_null_result_counterexample :
    stopResponse jniNullEnv Globals.init 42 = 500 ∧
      jniNullEnv.cstrAt 500 = "stopped" ∧
      nativeStopTunnel jniNullEnv Globals.init 42 =
        ⟨none, resolvedGlobals,
          [Event.dlopen "libgo_native_bridge.so",
           Event.dlsym 100 "StartXrayTunnelWithFd", Event.dlsym 100 "StopXrayTunnel",
           Event.dlsym 100 "FreeXrayTunnel", Event.dlsym 100 "FreeCString",
           Event.callStop 2 42, Event.newStringUTF 500, Event.callFreeCString 4 500]⟩ ∧
      nativeFreeTunnel jniNullEnv Globals.init 42 =
        ⟨none, resolvedGlobals,
          [Event.dlopen "libgo_native_bridge.so",
           Event.dlsym 100 "StartXrayTunnelWithFd", Event.dlsym 100 "StopXrayTunnel",
           Event.dlsym 100 "FreeXrayTunnel", Event.dlsym 100 "FreeCString",
           Event.callFree 3 42, Event.newStringUTF 501, Event.callFreeCString 4 501]⟩ ∧
      ¬ ((nativeStopTunnel jniNullEnv Globals.init 42).ret = some "stopped" ∧
          (nativeStopTunnel jniNullEnv Globals.init 42).ret ≠ none) := by
  decide

/-- C5 as amended: for a handle `h > 0` with the binding available, `nativeStopTunnel` calls
the engine stop entry point exactly once, through the cached stop address and with `h`, and
returns, untested, what `NewStringUTF` answers for the literal `"error:null_response"` when
the engine answered `nullptr` and for the text stored at the address the engine answered
otherwise.  So when `NewStringUTF` answers a string holding the text it was given, the result
is `"error:null_response"`, respectively the engine's text unchanged, and is not null; and
the result is null exactly when `NewStringUTF` answers null.  `nativeFreeTunnel` does the
same with the free entry point. -/
theorem C5_stop_free_pass_through (e : Env) (g : Globals) (h : Int) (hh : 0 < h)
    (hb : bindingAvailable e g = true) :
    ((nativeStopTunnel e g h).ret =
        e.newStringUTF
          (if stopResponse e g h = 0 then "error:null_response"
           else e.cstrAt (stopResponse e g h))) ∧
      (nativeStopTunnel e g h).trace.filter (fun ev => ev.isEngineCall && !ev.isFreeCString) =
        [Event.callStop (ensureBridgeLoaded e g).globals.gStopFn h] ∧
      ((nativeFreeTunnel e g h).ret =
        e.newStringUTF
          (if freeResponse e g h = 0 then "error:null_response"
           else e.cstrAt (freeResponse e g h))) ∧
      (nativeFreeTunnel e g h).trace.filter (fun ev => ev.isEngineCall && !ev.isFreeCString) =
        [Event.callFree (ensureBridgeLoaded e g).globals.gFreeFn h] ∧
      ((∀ t, e.newStringUTF t = some t) →
        ((nativeStopTunnel e g h).ret =
            if stopResponse e g h = 0 then some "error:null_response"
            else some (e.cstrAt (stopResponse e g h))) ∧
          (nativeStopTunnel e g h).ret ≠ none ∧
          ((nativeFreeTunnel e g h).ret =
            if freeResponse e g h = 0 then some "error:null_response"
            else some (e.cstrAt (freeResponse e g h))) ∧
          (nativeFreeTunnel e g h).ret ≠ none) ∧
      ((nativeStopTunnel e g h).ret = none ↔
        e.newStringUTF
          (if stopResponse e g h = 0 then "error:null_response"
           else e.cstrAt (stopResponse e g h)) = none) ∧
      ((nativeFreeTunnel e g h).ret = none ↔
        e.newStringUTF
          (if freeResponse e g h = 0 then "error:null_response"
           else e.cstrAt (freeResponse e g h)) = none) := by
  have hs := stop_pass_through e g h hh hb
  have hf := free_pass_through e g h hh hb
  unfold stopText at hs
  unfold freeText at hf
  refine ⟨hs.1, hs.2, hf.1, hf.2, ?_, by rw [hs.1], by rw [hf.1]⟩
  intro hj
  have h1 := text_of_copy e (stopResponse e g h) hj
  have h2 := text_of_copy e (freeResponse e g h) hj
  refine ⟨by rw [hs.1, h1], ?_, by rw [hf.1, h2], ?_⟩
  · rw [hs.1, hj]; simp
  · rw [hf.1, hj]; simp

/-- Scenario B: handle `42`, the engine stop answers the text `"stopped"`, free `"freed"`,
and `NewStringUTF` answers a string holding the text it is given. -/
theorem C5_stop_free_pass_through_witness :
    ((nativeStopTunnel stubEnv Globals.init 42).ret = some "stopped") ∧
      (nativeStopTunnel stubEnv Globals.init 42).trace.filter
        (fun ev => ev.isEngineCall && !ev.isFreeCString) = [Event.callStop 2 42] ∧
      (nativeStopTunnel stubEnv Globals.init 42).ret ≠ none ∧
      ((nativeFreeTunnel stubEnv Globals.init 42).ret = some "freed") ∧
      (nativeFreeTunnel stubEnv Globals.init 42).trace.filter
        (fun ev => ev.isEngineCall && !ev.isFreeCString) = [Event.callFree 3 42] ∧
      (nativeFreeTunnel stubEnv Globals.init 42).ret ≠ none :=
  ⟨((C5_stop_free_pass_through stubEnv Globals.init 42 (by decide) (by decide)).2.2.2.2.1
      (fun _ => rfl)).1,
    (C5_stop_free_pass_through stubEnv Globals.init 42 (by decide) (by decide)).2.1,
    ((C5_stop_free_pass_through stubEnv Globals.init 42 (by decide) (by decide)).2.2.2.2.1
      (fun _ => rfl)).2.1,
    ((C5_stop_free_pass_through stubEnv Globals.init 42 (by decide) (by decide)).2.2.2.2.1
      (fun _ => rfl)).2.2.1,
    (C5_stop_free_pass_through stubEnv Globals.init 42 (by decide) (by decide)).2.2.2.1,
    ((C5_stop_free_pass_through stubEnv Globals.init 42 (by decide) (by decide)).2.2.2.2.1
      (fun _ => rfl)).2.2.2⟩

/-- C6: in every call of `nativeStopTunnel` or `nativeFreeTunnel`, from any globals and in
any world, the release-string entry point is called exactly once when the engine answered a
non-null `char*` (handle `> 0`, binding available), through the cached `FreeCString` address
and with the very pointer the engine answered, and it is the last event of the call, right
after the `NewStringUTF` that copies the text; it is not called at all otherwise (null
answer, handle `≤ 0`, binding unavailable).  Whenever `toJStringAndFree` is reached (binding
available) the cached `FreeCString` address is non-null, so its guard holds. -/
theorem C6_release_exactly_once (e : Env) (g : Globals) (h : Int) :
    ((nativeStopTunnel e g h).trace.filter Event.isFreeCString =
        if 0 < h ∧ bindingAvailable e g = true ∧ stopResponse e g h ≠ 0 then
          [Event.callFreeCString (ensureBridgeLoaded e g).globals.gFreeCStringFn
            (stopResponse e g h)]
        else []) ∧
      (0 < h → bindingAvailable e g = true → stopResponse e g h ≠ 0 →
        (nativeStopTunnel e g h).trace =
          (ensureBridgeLoaded e g).trace ++
            [Event.callStop (ensureBridgeLoaded e g).globals.gStopFn h,
             Event.newStringUTF (stopResponse e g h),
             Event.callFreeCString (ensureBridgeLoaded e g).globals.gFreeCStringFn
               (stopResponse e g h)]) ∧
      ((nativeFreeTunnel e g h).trace.filter Event.isFreeCString =
        if 0 < h ∧ bindingAvailable e g = true ∧ freeResponse e g h ≠ 0 then
          [Event.callFreeCString (ensureBridgeLoaded e g).globals.gFreeCStringFn
            (freeResponse e g h)]
        else []) ∧
      (0 < h → bindingAvailable e g = true → freeResponse e g h ≠ 0 →
        (nativeFreeTunnel e g h).trace =
          (ensureBridgeLoaded e g).trace ++
            [Event.callFree (ensureBridgeLoaded e g).globals.gFreeFn h,
             Event.newStringUTF (freeResponse e g h),
             Event.callFreeCString (ensureBridgeLoaded e g).globals.gFreeCStringFn
               (freeResponse e g h)]) ∧
      (bindingAvailable e g = true → (ensureBridgeLoaded e g).globals.gFreeCStringFn ≠ 0) := by
  have hn := ensure_trace_no_release e g
  refine ⟨?_, ?_, ?_, ?_, ?_⟩
  · by_cases hh : h ≤ 0
    · rw [stop_invalid e g h hh, if_neg (fun hc => absurd hc.1 (not_lt.mpr hh))]
      rfl
    · have hh := not_le.mp hh
      cases hr : (ensureBridgeLoaded e g).ret
      · have hb : ¬ bindingAvailable e g = true := by rw [← ensure_ret_eq, hr]; simp
        rw [stop_unavailable e g h hh hr, if_neg (fun hc => hb hc.2.1)]
        simp only [List.filter_append, hn, List.nil_append]
        rfl
      · have hb : bindingAvailable e g = true := by rw [← ensure_ret_eq, hr]
        by_cases hp : stopResponse e g h = 0
        · rw [stop_null e g h hh hr hp, if_neg (fun hc => hc.2.2 hp)]
          simp only [List.filter_append, hn, List.nil_append]
          rfl
        · rw [stop_text e g h hh hr hp, if_pos ⟨hh, hb, hp⟩]
          simp only [List.filter_append, hn, List.nil_append]
          rfl
  · intro hh hb hp
    have hr : (ensureBridgeLoaded e g).ret = true := by rw [ensure_ret_eq]; exact hb
    rw [stop_text e g h hh hr hp]
  · by_cases hh : h ≤ 0
    · rw [free_invalid e g h hh, if_neg (fun hc => absurd hc.1 (not_lt.mpr hh))]
      rfl
    · have hh := not_le.mp hh
      cases hr : (ensureBridgeLoaded e g).ret
      · have hb : ¬ bindingAvailable e g = true := by rw [← ensure_ret_eq, hr]; simp
        rw [free_unavailable e g h hh hr, if_neg (fun hc => hb hc.2.1)]
        simp only [List.filter_append, hn, List.nil_append]
        rfl
      · have hb : bindingAvailable e g = true := by rw [← ensure_ret_eq, hr]
        by_cases hp : freeResponse e g h = 0
        · rw [free_null e g h hh hr hp, if_neg (fun hc => hc.2.2 hp)]
          simp only [List.filter_append, hn, List.nil_append]
          rfl
        · rw [free_text e g h hh hr hp, if_pos ⟨hh, hb, hp⟩]
          simp only [List.filter_append, hn, List.nil_append]
          rfl
  · intro hh hb hp
    have hr : (ensureBridgeLoaded e g).ret = true := by rw [ensure_ret_eq]; exact hb
    rw [free_text e g h hh hr hp]
  · intro hb
    have hr : (ensureBridgeLoaded e g).ret = true := by rw [ensure_ret_eq]; exact hb
    exact resolved_release_ne _ (ensure_true_resolved e g hr)

/-- Scenario B: handle `42`, the engine stop answers the buffer at `500`; the release entry
point (address `4`) is called once with `500`, after the copy. -/
theorem C6_release_exactly_once_witness :
    (nativeStopTunnel stubEnv Globals.init 42).trace.filter Event.isFreeCString =
        [Event.callFreeCString 4 500] ∧
      (nativeStopTunnel stubEnv Globals.init 42).trace =
        (ensureBridgeLoaded stubEnv Globals.init).trace ++
          [Event.callStop 2 42, Event.newStringUTF 500, Event.callFreeCString 4 500] ∧
      (ensureBridgeLoaded stubEnv Globals.init).globals.gFreeCStringFn ≠ 0 :=
  ⟨(C6_release_exactly_once stubEnv Globals.init 42).1,
    (C6_release_exactly_once stubEnv Globals.init 42).2.1 (by decide) (by decide) (by decide),
    (C6_release_exactly_once stubEnv Globals.init 42).2.2.2.2 (by decide)⟩

/-! ## Sequences of operations -/

theorem exec_globals (c : Call) (e : Env) (g : Globals) :
    (c.exec e g).1 = g ∨ (c.exec e g).1 = (ensureBridgeLoaded e g).globals := by
  cases c with
  | ensure => exact Or.inr rfl
  | start cfg fd =>
    cases cfg with
    | none => exact Or.inl rfl
    | some cfg =>
      by_cases hfd : fd ≤ 0
      · left; simp [Call.exec, nativeStartTunnel, hfd]
      · have hfd := not_le.mp hfd
        right
        cases hr : (ensureBridgeLoaded e g).ret
        · simp [Call.exec, start_unavailable e g cfg fd hfd hr]
        · exact start_globals_of_ready e g cfg fd hfd hr
  | stop h =>
    by_cases hh : h ≤ 0
    · left; simp [Call.exec, stop_invalid e g h hh]
    · have hh := not_le.mp hh
      right
      cases hr : (ensureBridgeLoaded e g).ret
      · simp [Call.exec, stop_unavailable e g h hh hr]
      · by_cases hp : stopResponse e g h = 0
        · simp [Call.exec, stop_null e g h hh hr hp]
        · simp [Call.exec, stop_text e g h hh hr hp]
  | free h =>
    by_cases hh : h ≤ 0
    · left; simp [Call.exec, free_invalid e g h hh]
    · have hh := not_le.mp hh
      right
      cases hr : (ensureBridgeLoaded e g).ret
      · simp [Call.exec, free_unavailable e g h hh hr]
      · by_cases hp : freeResponse e g h = 0
        · simp [Call.exec, free_null e g h hh hr hp]
        · simp [Call.exec, free_text e g h hh hr hp]

theorem exec_of_resolved (c : Call) (e : Env) (g : Globals) (hr : allResolved g = true) :
    (c.exec e g).1 = g ∧ (c.exec e g).2.filter Event.isResolution = [] := by
  have he := ensure_of_resolved e g hr
  have hret : (ensureBridgeLoaded e g).ret = true := by rw [he]
  constructor
  · cases exec_globals c e g with
    | inl h => exact h
    | inr h => rw [h, he]
  · cases c with
    | ensure => simp [Call.exec, he]
    | start cfg fd =>
      cases cfg with
      | none => rfl
      | some cfg =>
        by_cases hfd : fd ≤ 0
        · simp [Call.exec, nativeStartTunnel, hfd]
        · simp only [Call.exec, nativeStartTunnel, hfd, if_false, he, Bool.not_true,
            Bool.false_eq_true]
          split <;> rfl
    | stop h =>
      by_cases hh : h ≤ 0
      · simp [Call.exec, stop_invalid e g h hh, Event.isResolution]
      · have hh := not_le.mp hh
        by_cases hp : stopResponse e g h = 0
        · simp [Call.exec, stop_null e g h hh hret hp, he, Event.isResolution]
        · simp [Call.exec, stop_text e g h hh hret hp, he, Event.isResolution]
    | free h =>
      by_cases hh : h ≤ 0
      · simp [Call.exec, free_invalid e g h hh, Event.isResolution]
      · have hh := not_le.mp hh
        by_cases hp : freeResponse e g h = 0
        · simp [Call.exec, free_null e g h hh hret hp, he, Event.isResolution]
        · simp [Call.exec, free_text e g h hh hret hp, he, Event.isResolution]

theorem runCalls_of_resolved (calls : List (Env × Call)) (g : Globals)
    (hr : allResolved g = true) :
    (runCalls calls g).1 = g ∧ (runCalls calls g).2.filter Event.isResolution = [] := by
  induction calls with
  | nil => exact ⟨rfl, rfl⟩
  | cons ec rest ih =>
    have h1 := exec_of_resolved ec.2 ec.1 g hr
    simp only [runCalls, h1.1, List.filter_append, h1.2, List.nil_append]
    exact ih

theorem lookup_le_resolution (t : List Event) (h : t.filter Event.isResolution = []) :
    t.filter Event.isLookup = [] := by
  rw [List.filter_eq_nil_iff] at h ⊢
  intro a ha
  have := h a ha
  cases a <;> simp_all [Event.isResolution, Event.isLookup]

/-- C8: once a call of `ensureBridgeLoaded` has returned true, then after any sequence of
operations (the resolver itself, start, stop, free, each in a world of its own) the globals
(library reference and the four cached addresses) are exactly those the successful call left,
the sequence performs no module load and no symbol lookup, and a further call of
`ensureBridgeLoaded` in any world returns true with no event at all.  When the successful
call started from an incomplete cache, the symbol lookups of that call and of everything
after it are exactly one lookup sequence. -/
theorem C8_resolution_idempotent (e0 : Env) (g0 : Globals)
    (h0 : (ensureBridgeLoaded e0 g0).ret = true) (calls : List (Env × Call)) (e : Env) :
    (runCalls calls (ensureBridgeLoaded e0 g0).globals).1 = (ensureBridgeLoaded e0 g0).globals ∧
      (runCalls calls (ensureBridgeLoaded e0 g0).globals).2.filter Event.isResolution = [] ∧
      ensureBridgeLoaded e (runCalls calls (ensureBridgeLoaded e0 g0).globals).1 =
        ⟨true, (ensureBridgeLoaded e0 g0).globals, []⟩ ∧
      (allResolved g0 = false →
        ((ensureBridgeLoaded e0 g0).trace ++
            (runCalls calls (ensureBridgeLoaded e0 g0).globals).2 ++
            (ensureBridgeLoaded e (runCalls calls (ensureBridgeLoaded e0 g0).globals).1).trace
          ).filter Event.isLookup = lookupTrace (loadedHandle e0 g0)) := by
  have hres := ensure_true_resolved e0 g0 h0
  have hrun := runCalls_of_resolved calls _ hres
  have hens : ensureBridgeLoaded e (runCalls calls (ensureBridgeLoaded e0 g0).globals).1 =
      ⟨true, (ensureBridgeLoaded e0 g0).globals, []⟩ := by
    rw [hrun.1]; exact ensure_of_resolved e _ hres
  refine ⟨hrun.1, hrun.2, hens, ?_⟩
  intro hnr
  rw [hens]
  simp only [List.append_nil, List.filter_append, lookup_le_resolution _ hrun.2]
  by_cases hl : loadedHandle e0 g0 = 0
  · rw [ensure_load_failed e0 g0 hnr hl] at h0
    simp at h0
  · rw [ensure_lookup e0 g0 hnr hl]
    have : (loadTrace g0).filter Event.isLookup = [] := by
      unfold loadTrace; split <;> rfl
    simp only [List.filter_append, this, List.nil_append, List.append_nil]
    rfl

/-- A first call from the initial globals resolves against the test double; a start, a stop,
a free and a bare resolver call follow, the last three in worlds where the module is gone. -/
theorem C8_resolution_idempotent_witness :
    (runCalls [(stubEnv, Call.start (some "\x7b\x7d") 7), (noModuleEnv, Call.stop 42),
        (noModuleEnv, Call.free 42), (noModuleEnv, Call.ensure)]
        (ensureBridgeLoaded stubEnv Globals.init).globals).1 =
        (ensureBridgeLoaded stubEnv Globals.init).globals ∧
      (runCalls [(stubEnv, Call.start (some "\x7b\x7d") 7), (noModuleEnv, Call.stop 42),
        (noModuleEnv, Call.free 42), (noModuleEnv, Call.ensure)]
        (ensureBridgeLoaded stubEnv Globals.init).globals).2.filter Event.isResolution = [] ∧
      ensureBridgeLoaded missingSymbolEnv
        (runCalls [(stubEnv, Call.start (some "\x7b\x7d") 7), (noModuleEnv, Call.stop 42),
          (noModuleEnv, Call.free 42), (noModuleEnv, Call.ensure)]
          (ensureBridgeLoaded stubEnv Globals.init).globals).1 =
        ⟨true, (ensureBridgeLoaded stubEnv Globals.init).globals, []⟩ ∧
      ((ensureBridgeLoaded stubEnv Globals.init).trace ++
          (runCalls [(stubEnv, Call.start (some "\x7b\x7d") 7), (noModuleEnv, Call.stop 42),
            (noModuleEnv, Call.free 42), (noModuleEnv, Call.ensure)]
            (ensureBridgeLoaded stubEnv Globals.init).globals).2 ++
          (ensureBridgeLoaded missingSymbolEnv
            (runCalls [(stubEnv, Call.start (some "\x7b\x7d") 7), (noModuleEnv, Call.stop 42),
              (noModuleEnv, Call.free 42), (noModuleEnv, Call.ensure)]
              (ensureBridgeLoaded stubEnv Globals.init).globals).1).trace
        ).filter Event.isLookup = lookupTrace 100 :=
  ⟨(C8_resolution_idempotent stubEnv Globals.init (by decide) _ missingSymbolEnv).1,
    (C8_resolution_idempotent stubEnv Globals.init (by decide) _ missingSymbolEnv).2.1,
    (C8_resolution_idempotent stubEnv Globals.init (by decide) _ missingSymbolEnv).2.2.1,
    (C8_resolution_idempotent stubEnv Globals.init (by decide) _ missingSymbolEnv).2.2.2
      (by decide)⟩

/-! ## After a failed resolution -/

theorem loadedHandle_of_cached (e : Env) (g : Globals) (h : g.gBridgeHandle ≠ 0) :
    loadedHandle e g = g.gBridgeHandle := by
  simp [loadedHandle, h]

theorem loadTrace_of_cached (g : Globals) (h : g.gBridgeHandle ≠ 0) : loadTrace g = [] := by
  simp [loadTrace, h]

theorem runCalls_lookup_failing (H : Ptr) (hH : H ≠ 0) (calls : List (Env × Call))
    (g : Globals) (hg : g.gBridgeHandle = H) (hnr : allResolved g = false)
    (hcalls : ∀ ec ∈ calls, symbolsResolve ec.1 H = false) :
    (runCalls calls g).1.gBridgeHandle = H ∧ allResolved (runCalls calls g).1 = false := by
  induction calls generalizing g with
  | nil => exact ⟨hg, hnr⟩
  | cons ec rest ih =>
    have hne : g.gBridgeHandle ≠ 0 := by rw [hg]; exact hH
    have hl : loadedHandle ec.1 g = H := by rw [loadedHandle_of_cached _ _ hne, hg]
    have hs : symbolsResolve ec.1 H = false := hcalls ec (List.mem_cons_self _ _)
    have hens : (ensureBridgeLoaded ec.1 g).globals = resolvedTo ec.1 H := by
      rw [ensure_lookup ec.1 g hnr (by rw [hl]; exact hH), hl]
    have hstep : (ec.2.exec ec.1 g).1.gBridgeHandle = H ∧
        allResolved (ec.2.exec ec.1 g).1 = false := by
      cases exec_globals ec.2 ec.1 g with
      | inl h => rw [h]; exact ⟨hg, hnr⟩
      | inr h => rw [h, hens]; exact ⟨rfl, by rw [allResolved_resolvedTo]; exact hs⟩
    simp only [runCalls]
    exact ih _ hstep.1 hstep.2 (fun ec1 h1 => hcalls ec1 (List.mem_cons_of_mem _ h1))

/-- C9 fails: from the initial globals, a first resolver call in a world where the module
loads (reference `100`) but `FreeCString` is missing returns false, keeping the reference
with the `FreeCString` slot null; the next call in that same world makes no `dlopen` but
looks all four symbols up again, the failed slot included; and a next call in the world
where `FreeCString` now resolves returns true. -/
theorem C9_fail_once_counterexample :
    ensureBridgeLoaded missingSymbolEnv Globals.init =
        ⟨false, ⟨100, 1, 2, 3, 0⟩,
          [Event.dlopen "libgo_native_bridge.so",
           Event.dlsym 100 "StartXrayTunnelWithFd", Event.dlsym 100 "StopXrayTunnel",
           Event.dlsym 100 "FreeXrayTunnel", Event.dlsym 100 "FreeCString"]⟩ ∧
      ensureBridgeLoaded missingSymbolEnv ⟨100, 1, 2, 3, 0⟩ =
        ⟨false, ⟨100, 1, 2, 3, 0⟩,
          [Event.dlsym 100 "StartXrayTunnelWithFd", Event.dlsym 100 "StopXrayTunnel",
           Event.dlsym 100 "FreeXrayTunnel", Event.dlsym 100 "FreeCString"]⟩ ∧
      ensureBridgeLoaded stubEnv ⟨100, 1, 2, 3, 0⟩ =
        ⟨true, ⟨100, 1, 2, 3, 4⟩,
          [Event.dlsym 100 "StartXrayTunnelWithFd", Event.dlsym 100 "StopXrayTunnel",
           Event.dlsym 100 "FreeXrayTunnel", Event.dlsym 100 "FreeCString"]⟩ ∧
      ¬ ((ensureBridgeLoaded stubEnv
            (ensureBridgeLoaded missingSymbolEnv Globals.init).globals).ret = false ∧
          Event.dlsym 100 "FreeCString" ∉
            (ensureBridgeLoaded stubEnv
              (ensureBridgeLoaded missingSymbolEnv Globals.init).globals).trace) := by
  decide

/-- C9 as amended: if a call of `ensureBridgeLoaded` (cache incomplete) had the module loaded
but did not resolve all four symbols, it returns false and keeps the library reference; then,
after any further operations made in worlds where the four symbols still do not all resolve,
a later call of `ensureBridgeLoaded` performs no module load but repeats the four symbol
lookups on the cached library reference (the failed slot included), overwrites the four
cached addresses with what they answer, and returns true exactly when all four lookups
answer non-null at that later time. -/
theorem C9_lookup_retried (e1 e2 : Env) (g0 : Globals) (calls : List (Env × Call))
    (hnr : allResolved g0 = false) (hl : loadedHandle e1 g0 ≠ 0)
    (hs : symbolsResolve e1 (loadedHandle e1 g0) = false)
    (hcalls : ∀ ec ∈ calls, symbolsResolve ec.1 (loadedHandle e1 g0) = false) :
    (ensureBridgeLoaded e1 g0).ret = false ∧
      (ensureBridgeLoaded e1 g0).globals.gBridgeHandle = loadedHandle e1 g0 ∧
      ensureBridgeLoaded e2 (runCalls calls (ensureBridgeLoaded e1 g0).globals).1 =
        ⟨symbolsResolve e2 (loadedHandle e1 g0), resolvedTo e2 (loadedHandle e1 g0),
          lookupTrace (loadedHandle e1 g0)⟩ := by
  have he1 := ensure_lookup e1 g0 hnr hl
  have hinv := runCalls_lookup_failing (loadedHandle e1 g0) hl calls
    (ensureBridgeLoaded e1 g0).globals (by rw [he1]; rfl)
    (by rw [he1, allResolved_resolvedTo]; exact hs) hcalls
  have hne : (runCalls calls (ensureBridgeLoaded e1 g0).globals).1.gBridgeHandle ≠ 0 := by
    rw [hinv.1]; exact hl
  have hlh := loadedHandle_of_cached e2 _ hne
  refine ⟨by rw [he1]; exact hs, by rw [he1]; rfl, ?_⟩
  rw [ensure_lookup e2 _ hinv.2 (by rw [hlh]; exact hne), hlh, hinv.1,
    loadTrace_of_cached _ hne]
  rfl

/-- The amended C9 against the test doubles: `FreeCString` is missing in the first call and in
an intervening stop, and resolves at the later call. -/
theorem C9_lookup_retried_witness :
    (ensureBridgeLoaded missingSymbolEnv Globals.init).ret = false ∧
      (ensureBridgeLoaded missingSymbolEnv Globals.init).globals.gBridgeHandle =
        loadedHandle missingSymbolEnv Globals.init ∧
      ensureBridgeLoaded stubEnv
          (runCalls [(missingSymbolEnv, Call.stop 42)]
            (ensureBridgeLoaded missingSymbolEnv Globals.init).globals).1 =
        ⟨symbolsResolve stubEnv (loadedHandle missingSymbolEnv Globals.init),
          resolvedTo stubEnv (loadedHandle missingSymbolEnv Globals.init),
          lookupTrace (loadedHandle missingSymbolEnv Globals.init)⟩ :=
  C9_lookup_retried missingSymbolEnv stubEnv Globals.init [(missingSymbolEnv, Call.stop 42)]
    (by decide) (by decide) (by decide) (by decide)

/-! ## After a failed load -/

theorem loadedHandle_of_null (e : Env) (g : Globals) (h : g.gBridgeHandle = 0) :
    loadedHandle e g = e.dlopen "libgo_native_bridge.so" := by
  simp [loadedHandle, h]

theorem runCalls_load_failing (calls : List (Env × Call)) (g : Globals)
    (hg : g.gBridgeHandle = 0) (hnr : allResolved g = false)
    (hcalls : ∀ ec ∈ calls, ec.1.dlopen "libgo_native_bridge.so" = 0) :
    (runCalls calls g).1 = g ∧ (runCalls calls g).2.filter Event.isEngineCall = [] := by
  induction calls with
  | nil => exact ⟨rfl, rfl⟩
  | cons ec rest ih =>
    have hd : ec.1.dlopen "libgo_native_bridge.so" = 0 := hcalls ec (List.mem_cons_self _ _)
    have hl : loadedHandle ec.1 g = 0 := by rw [loadedHandle_of_null _ _ hg, hd]
    have hens := ensure_load_failed ec.1 g hnr hl
    have hstep : (ec.2.exec ec.1 g).1 = g := by
      cases exec_globals ec.2 ec.1 g with
      | inl h => exact h
      | inr h => rw [h, hens]
    have hquiet : (ec.2.exec ec.1 g).2.filter Event.isEngineCall = [] := by
      by_contra hne
      have := (exec_engine_call ec.2 ec.1 g hne).1
      rw [hstep, hnr] at this
      cases this
    have ih1 := ih (fun ec1 h1 => hcalls ec1 (List.mem_cons_of_mem _ h1))
    simp only [runCalls, hstep, List.filter_append, hquiet, List.nil_append]
    exact ih1

/-- C10: with no library reference cached and the cache incomplete, operations made while the
module cannot be loaded fail with the binding-unavailable result (`-1` for start, what
`NewStringUTF` makes of exactly the literal `"error:native_bridge_unavailable"` for stop and
free, that text itself whenever `NewStringUTF` answers a string holding it) after one
`dlopen` attempt each, call no engine entry point and leave the globals, the null library
reference included, as they were, however many of them are made.  A later call made when the
module loads and all four symbols resolve calls `dlopen` again, `ensureBridgeLoaded` returns
true, and `nativeStopTunnel` with a handle `> 0` calls the engine stop entry point once with
that handle and returns what `NewStringUTF` makes of the engine's answer (the literal
`"error:null_response"` for `nullptr`, the engine's text otherwise; that very text whenever
`NewStringUTF` answers a string holding what it was given). -/
theorem C10_recovers_after_failed_load (e1 e2 : Env) (g0 : Globals)
    (calls : List (Env × Call)) (cfg : String) (tunFd h : Int)
    (hfd : 0 < tunFd) (hh : 0 < h)
    (hg : g0.gBridgeHandle = 0) (hnr : allResolved g0 = false)
    (he1 : e1.dlopen "libgo_native_bridge.so" = 0)
    (hcalls : ∀ ec ∈ calls, ec.1.dlopen "libgo_native_bridge.so" = 0)
    (hload : e2.dlopen "libgo_native_bridge.so" ≠ 0)
    (hsyms : symbolsResolve e2 (e2.dlopen "libgo_native_bridge.so") = true) :
    nativeStartTunnel e1 g0 (some cfg) tunFd =
        ⟨-1, g0, [Event.dlopen "libgo_native_bridge.so"]⟩ ∧
      nativeStopTunnel e1 g0 h =
        ⟨e1.newStringUTF "error:native_bridge_unavailable", g0,
          [Event.dlopen "libgo_native_bridge.so",
           Event.newStringUTFLiteral "error:native_bridge_unavailable"]⟩ ∧
      nativeFreeTunnel e1 g0 h =
        ⟨e1.newStringUTF "error:native_bridge_unavailable", g0,
          [Event.dlopen "libgo_native_bridge.so",
           Event.newStringUTFLiteral "error:native_bridge_unavailable"]⟩ ∧
      (e1.newStringUTF "error:native_bridge_unavailable" =
          some "error:native_bridge_unavailable" →
        nativeStopTunnel e1 g0 h =
            ⟨some "error:native_bridge_unavailable", g0,
              [Event.dlopen "libgo_native_bridge.so",
               Event.newStringUTFLiteral "error:native_bridge_unavailable"]⟩ ∧
          nativeFreeTunnel e1 g0 h =
            ⟨some "error:native_bridge_unavailable", g0,
              [Event.dlopen "libgo_native_bridge.so",
               Event.newStringUTFLiteral "error:native_bridge_unavailable"]⟩) ∧
      (runCalls calls g0).1 = g0 ∧
      (runCalls calls g0).2.filter Event.isEngineCall = [] ∧
      ensureBridgeLoaded e2 (runCalls calls g0).1 =
        ⟨true, resolvedTo e2 (e2.dlopen "libgo_native_bridge.so"),
          Event.dlopen "libgo_native_bridge.so" ::
            lookupTrace (e2.dlopen "libgo_native_bridge.so")⟩ ∧
      ((nativeStopTunnel e2 (runCalls calls g0).1 h).ret =
        e2.newStringUTF
          (if stopResponse e2 g0 h = 0 then "error:null_response"
           else e2.cstrAt (stopResponse e2 g0 h))) ∧
      ((∀ t, e2.newStringUTF t = some t) →
        (nativeStopTunnel e2 (runCalls calls g0).1 h).ret =
          if stopResponse e2 g0 h = 0 then some "error:null_response"
          else some (e2.cstrAt (stopResponse e2 g0 h))) ∧
      (nativeStopTunnel e2 (runCalls calls g0).1 h).trace.filter
          (fun ev => ev.isEngineCall && !ev.isFreeCString) =
        [Event.callStop (e2.dlsym (e2.dlopen "libgo_native_bridge.so") "StopXrayTunnel") h] := by
  have hl1 : loadedHandle e1 g0 = 0 := by rw [loadedHandle_of_null _ _ hg, he1]
  have hens1 := ensure_load_failed e1 g0 hnr hl1
  have hr1 : (ensureBridgeLoaded e1 g0).ret = false := by rw [hens1]
  have hrun := runCalls_load_failing calls g0 hg hnr hcalls
  have hl2 : loadedHandle e2 g0 = e2.dlopen "libgo_native_bridge.so" :=
    loadedHandle_of_null _ _ hg
  have hens2 : ensureBridgeLoaded e2 g0 =
      ⟨true, resolvedTo e2 (e2.dlopen "libgo_native_bridge.so"),
        Event.dlopen "libgo_native_bridge.so" ::
          lookupTrace (e2.dlopen "libgo_native_bridge.so")⟩ := by
    rw [ensure_lookup e2 g0 hnr (by rw [hl2]; exact hload), hl2, hsyms]
    simp [loadTrace, hg]
  have hb2 : bindingAvailable e2 g0 = true := by rw [← ensure_ret_eq, hens2]
  have h5 := stop_pass_through e2 g0 h hh hb2
  unfold stopText at h5
  have hstop : nativeStopTunnel e1 g0 h =
      ⟨e1.newStringUTF "error:native_bridge_unavailable", g0,
        [Event.dlopen "libgo_native_bridge.so",
         Event.newStringUTFLiteral "error:native_bridge_unavailable"]⟩ := by
    rw [stop_unavailable e1 g0 h hh hr1, hens1]; rfl
  have hfree : nativeFreeTunnel e1 g0 h =
      ⟨e1.newStringUTF "error:native_bridge_unavailable", g0,
        [Event.dlopen "libgo_native_bridge.so",
         Event.newStringUTFLiteral "error:native_bridge_unavailable"]⟩ := by
    rw [free_unavailable e1 g0 h hh hr1, hens1]; rfl
  rw [hrun.1]
  refine ⟨?_, hstop, hfree, ?_, rfl, hrun.2, hens2, h5.1, ?_, ?_⟩
  · rw [start_unavailable e1 g0 cfg tunFd hfd hr1, hens1]
  · intro hj
    rw [hstop, hfree, hj]
    exact ⟨rfl, rfl⟩
  · intro hj
    rw [h5.1]
    exact text_of_copy e2 (stopResponse e2 g0 h) hj
  · rw [h5.2, hens2]; rfl

/-- A start, a stop and a free fail while the module is absent; the module then appears and
stop with handle `42` returns the engine's `"stopped"`. -/
theorem C10_recovers_after_failed_load_witness :
    nativeStartTunnel noModuleEnv Globals.init (some "\x7b\x7d") 7 =
        ⟨-1, Globals.init, [Event.dlopen "libgo_native_bridge.so"]⟩ ∧
      nativeStopTunnel noModuleEnv Globals.init 42 =
        ⟨some "error:native_bridge_unavailable", Globals.init,
          [Event.dlopen "libgo_native_bridge.so",
           Event.newStringUTFLiteral "error:native_bridge_unavailable"]⟩ ∧
      nativeFreeTunnel noModuleEnv Globals.init 42 =
        ⟨some "error:native_bridge_unavailable", Globals.init,
          [Event.dlopen "libgo_native_bridge.so",
           Event.newStringUTFLiteral "error:native_bridge_unavailable"]⟩ ∧
      (runCalls [(noModuleEnv, Call.start (some "\x7b\x7d") 7), (noModuleEnv, Call.stop 42),
        (noModuleEnv, Call.free 42)] Globals.init).1 = Globals.init ∧
      (runCalls [(noModuleEnv, Call.start (some "\x7b\x7d") 7), (noModuleEnv, Call.stop 42),
        (noModuleEnv, Call.free 42)] Globals.init).2.filter Event.isEngineCall = [] ∧
      ensureBridgeLoaded stubEnv
          (runCalls [(noModuleEnv, Call.start (some "\x7b\x7d") 7), (noModuleEnv, Call.stop 42),
            (noModuleEnv, Call.free 42)] Globals.init).1 =
        ⟨true, resolvedGlobals,
          Event.dlopen "libgo_native_bridge.so" :: lookupTrace 100⟩ ∧
      (nativeStopTunnel stubEnv
          (runCalls [(noModuleEnv, Call.start (some "\x7b\x7d") 7), (noModuleEnv, Call.stop 42),
            (noModuleEnv, Call.free 42)] Globals.init).1 42).ret = some "stopped" ∧
      (nativeStopTunnel stubEnv
          (runCalls [(noModuleEnv, Call.start (some "\x7b\x7d") 7), (noModuleEnv, Call.stop 42),
            (noModuleEnv, Call.free 42)] Globals.init).1 42).trace.filter
          (fun ev => ev.isEngineCall && !ev.isFreeCString) = [Event.callStop 2 42] :=
  by
  have H := (C10_recovers_after_failed_load noModuleEnv stubEnv Globals.init
      [(noModuleEnv, Call.start (some "\x7b\x7d") 7), (noModuleEnv, Call.stop 42),
        (noModuleEnv, Call.free 42)] "\x7b\x7d" 7 42
      (by decide) (by decide) rfl rfl rfl (by decide) (by decide) (by decide))
  exact ⟨H.1, (H.2.2.2.1 rfl).1, (H.2.2.2.1 rfl).2, H.2.2.2.2.1, H.2.2.2.2.2.1,
    H.2.2.2.2.2.2.1, H.2.2.2.2.2.2.2.2.1 (fun _ => rfl), H.2.2.2.2.2.2.2.2.2⟩

end PacketTunnelJni
